import Mathlib

/-!
Shallow embedding of the jarvis-backend memory service (`src/main.py`).

The whole service operates on one JSON document persisted at a fixed path
(`memory.json`).  We model the persisted file as a `FileState` (absent,
corrupt, or storing a parsed document), every HTTP handler as a pure
function from the request data and the file state to the new file state
and a response, and Python exceptions that escape a handler as `Except`
errors that leave the file untouched.  Handlers are modelled in mock mode
(`USE_MOCK = true`), which is the default configuration and the branch the
claims are about; the live branch performs the same memory updates after
an external call that is out of scope.
-/

namespace Jarvis

/-- A note as stored in the `notes` array of `memory.json`.  `times_used`
is `Option Int` because not every code path writes the field: the dead
helper `remember_note` writes `times_used = 0`, but the `/remember`
endpoint appends notes without it (`src/main.py:196-200`); `none` models
the key being absent from the JSON object. -/
structure Note where
  content : String
  score : Int
  saved_at : String
  times_used : Option Int
deriving Repr, DecidableEq

/-- A profile/preferences entry `{"value": ..., "score": ...}` as written
by `/remember` (`src/main.py:194`). -/
structure Entry where
  value : String
  score : Int
deriving Repr, DecidableEq

/-- The persisted memory document.  `profile` and `preferences` are JSON
objects (modelled as association lists preserving insertion order, as
Python dicts do), `notes` is the ordered note array, and `extra` holds the
dynamically created categories that `/remember` can add
(`src/main.py:187-188`). -/
structure MemoryDoc where
  profile : List (String × Entry)
  preferences : List (String × Entry)
  notes : List Note
  extra : List (String × List Note)
deriving Repr, DecidableEq

/-- The fresh document `{"profile": {}, "preferences": {}, "notes": []}`
returned by `load_memory` when the file is absent (`src/main.py:64`). -/
def emptyDoc : MemoryDoc := ⟨[], [], [], []⟩

/-- State of the persisted `memory.json` file: absent, present but not
valid JSON, or present and parsing to a document. -/
inductive FileState where
  | absent
  | corrupt
  | stored (doc : MemoryDoc)
deriving Repr, DecidableEq

/-- `load_memory` (`src/main.py:62-66`): returns the empty document when
the file does not exist; otherwise `json.load` either parses the file or
raises `JSONDecodeError`, modelled as an `Except.error`. -/
def load_memory : FileState → Except String MemoryDoc
  | .absent => .ok emptyDoc
  | .corrupt => .error "json.decoder.JSONDecodeError"
  | .stored d => .ok d

/-- `save_memory` (`src/main.py:68-70`): overwrites the file with the
serialized document. -/
def save_memory (d : MemoryDoc) : FileState := .stored d

/-- A JSON response body with a `status` field and an optional `message`
field, as all memory endpoints return. -/
structure Resp where
  status : String
  message : Option String
deriving Repr, DecidableEq

/-- The ordering the handlers sort notes by:
`sort(key=lambda x: x.get("score", 0), reverse=True)` places `a` before
`b` when `b`'s score is at most `a`'s (descending). -/
def noteGe (a b : Note) : Prop := b.score ≤ a.score

instance : DecidableRel noteGe := fun a b => Int.decLe b.score a.score

instance : IsTotal Note noteGe := ⟨fun a b => le_total b.score a.score⟩

instance : IsTrans Note noteGe := ⟨fun _ _ _ h1 h2 => le_trans h2 h1⟩

/-- The in-place `memory["notes"].sort(key=lambda x: x.get("score", 0),
reverse=True)` used by `/chat`, `/ask` and `/memory`
(`src/main.py:96,138,217`).  Python's sort is the stable sort by the key
in descending order, which insertion sort with `noteGe` computes. -/
def rank (notes : List Note) : List Note := List.insertionSort noteGe notes

/-- One iteration of the score-update loop body
(`note["times_used"] += 1; note["score"] += 1`, `src/main.py:100-102`).
Reading `note["times_used"]` when the key is absent raises `KeyError`. -/
def incNote (n : Note) : Except String Note :=
  match n.times_used with
  | some t => .ok ⟨n.content, n.score + 1, n.saved_at, some (t + 1)⟩
  | none => .error "KeyError: times_used"

/-- The full score-update loop over the (sorted) notes list: stops with
the `KeyError` of the first note lacking `times_used`. -/
def incAllNotes : List Note → Except String (List Note)
  | [] => .ok []
  | n :: ns =>
    match incNote n with
    | .error e => .error e
    | .ok n' =>
      match incAllNotes ns with
      | .error e => .error e
      | .ok ns' => .ok (n' :: ns')

/-- `POST /chat` in mock mode (`src/main.py:91-107`): load, sort notes in
place, increment every note's counters, save, and reply with the mock
string.  An escaping exception (corrupt file, `KeyError`) is an
`Except.error` with the file left unchanged. -/
def chat (fs : FileState) (message : String) : FileState × Except String String :=
  match load_memory fs with
  | .error e => (fs, .error e)
  | .ok memory =>
    match incAllNotes (rank memory.notes) with
    | .error e => (fs, .error e)
    | .ok notes' =>
      (save_memory ⟨memory.profile, memory.preferences, notes', memory.extra⟩,
       .ok ("(Mock) I received your message: " ++ message ++
            "\nMemory notes count: " ++ toString notes'.length))

/-- Python's `str.strip()`: drop leading and trailing whitespace
characters (`src/main.py:132,177`). -/
def pyStrip (s : String) : String :=
  String.mk (((s.data.dropWhile Char.isWhitespace).reverse.dropWhile
    Char.isWhitespace).reverse)

/-- `POST /ask` in mock mode (`src/main.py:129-149`): an empty (stripped)
prompt returns the fixed refusal without touching storage; otherwise the
same load/sort/increment/save cycle as `/chat` with the ask-specific mock
reply. -/
def ask (fs : FileState) (promptData : String) : FileState × Except String String :=
  let p := pyStrip promptData
  if p = "" then
    (fs, .ok "I require an instruction, master. Silence is inefficient.")
  else
    match load_memory fs with
    | .error e => (fs, .error e)
    | .ok memory =>
      match incAllNotes (rank memory.notes) with
      | .error e => (fs, .error e)
      | .ok notes' =>
        (save_memory ⟨memory.profile, memory.preferences, notes', memory.extra⟩,
         .ok ("Certainly, master.\n\nYou asked: “" ++ p ++ "”\n\n(Mock mode active)"))

/-- Python dict assignment `d[k] = v` on an insertion-ordered dict:
overwrite in place when the key exists, else append the new binding. -/
def upsertAssoc (l : List (String × Entry)) (k : String) (e : Entry) :
    List (String × Entry) :=
  if l.any (fun p => p.1 = k) then
    l.map (fun p => if p.1 = k then (k, e) else p)
  else l ++ [(k, e)]

/-- The profile/preferences upsert `memory[category][key] = {"value":
content, "score": score}` (`src/main.py:194`). -/
def upsertEntry (m : MemoryDoc) (category k : String) (e : Entry) : MemoryDoc :=
  if category = "profile" then ⟨upsertAssoc m.profile k e, m.preferences, m.notes, m.extra⟩
  else ⟨m.profile, upsertAssoc m.preferences k e, m.notes, m.extra⟩

/-- Append a note onto a dynamically created category list, creating the
category first when absent (`src/main.py:187-188,196`). -/
def appendExtra (l : List (String × List Note)) (c : String) (n : Note) :
    List (String × List Note) :=
  if l.any (fun p => p.1 = c) then
    l.map (fun p => if p.1 = c then (p.1, p.2 ++ [n]) else p)
  else l ++ [(c, [n])]

/-- The non-profile branch of `/remember`: append the new note dict to
`memory[category]` (`src/main.py:195-200`). -/
def appendNote (m : MemoryDoc) (category : String) (n : Note) : MemoryDoc :=
  if category = "notes" then ⟨m.profile, m.preferences, m.notes ++ [n], m.extra⟩
  else ⟨m.profile, m.preferences, m.notes, appendExtra m.extra category n⟩

/-- The `{"status": "Memory stored", ...}` success response of
`/remember` (`src/main.py:204-207`). -/
def storedResp : Resp :=
  ⟨"Memory stored", some "I have stored this information securely and privately, master."⟩

/-- `POST /remember` (`src/main.py:173-210`).  `content` is stripped;
empty content short-circuits with a no-op acknowledgment before any
load.  `score` defaults to 5 when absent from the request.  For
`profile`/`preferences` a truthy `key` triggers the upsert and a missing
or empty key silently skips it; every non-short-circuit path ends in
`save_memory` and the same success response.  The handler's `except`
catches the load failure on a corrupt file and returns an error-status
response without writing. -/
def remember (fs : FileState) (content category : String) (score : Option Int)
    (key : Option String) (now : String) : FileState × Resp :=
  let c := pyStrip content
  let s := (score.getD 5)
  if c = "" then (fs, ⟨"Nothing to remember, master.", none⟩)
  else
    match load_memory fs with
    | .error e => (fs, ⟨"Error", some e⟩)
    | .ok memory =>
      if category = "profile" ∨ category = "preferences" then
        match key with
        | some k =>
          if k = "" then (save_memory memory, storedResp)
          else (save_memory (upsertEntry memory category k ⟨c, s⟩), storedResp)
        | none => (save_memory memory, storedResp)
      else
        (save_memory (appendNote memory category ⟨c, s, now, none⟩), storedResp)

/-- `GET /memory` (`src/main.py:213-218`): load, sort the notes of the
returned document by score descending, and return it; the handler never
calls `save_memory`. -/
def get_memory (fs : FileState) : FileState × Except String MemoryDoc :=
  match load_memory fs with
  | .error e => (fs, .error e)
  | .ok memory =>
    (fs, .ok ⟨memory.profile, memory.preferences, rank memory.notes, memory.extra⟩)

/-- Deletion `del memory[category][key]` guarded by `if key and key in
memory[category]` (`src/main.py:231-233`): a falsy (missing or empty) key
or an absent binding deletes nothing. -/
def deleteEntry (m : MemoryDoc) (category : String) (key : Option String) : MemoryDoc :=
  match key with
  | none => m
  | some k =>
    if k = "" then m
    else if category = "profile" then
      ⟨m.profile.filter (fun p => ¬ p.1 = k), m.preferences, m.notes, m.extra⟩
    else
      ⟨m.profile, m.preferences.filter (fun p => ¬ p.1 = k), m.notes, m.extra⟩

/-- The generic `{"status": "Memory forgotten", ...}` response of
`/forget` (`src/main.py:235,245`). -/
def forgottenResp : Resp :=
  ⟨"Memory forgotten", some "Requested memory cleared, master."⟩

/-- `POST /forget` (`src/main.py:221-245`).  `load_memory` runs before the
category check, so a corrupt file raises (uncaught) for every category.
An unrecognized category returns without saving.  For `notes`, an index
in `0 <= index < len(notes)` pops that note and names its content in the
message; a missing or out-of-range index falls through to saving the
loaded document unchanged with the generic response. -/
def forget (fs : FileState) (category : String) (key : Option String)
    (index : Option Int) : FileState × Except String Resp :=
  match load_memory fs with
  | .error e => (fs, .error e)
  | .ok memory =>
    if category = "profile" ∨ category = "preferences" ∨ category = "notes" then
      if category = "profile" ∨ category = "preferences" then
        (save_memory (deleteEntry memory category key), .ok forgottenResp)
      else
        match index with
        | some i =>
          if 0 ≤ i ∧ i < (memory.notes.length : Int) then
            let removed := memory.notes.getD i.toNat ⟨"", 0, "", none⟩
            (save_memory ⟨memory.profile, memory.preferences,
                          memory.notes.eraseIdx i.toNat, memory.extra⟩,
             .ok ⟨"Memory forgotten",
                  some ("I have forgotten the memory: '" ++ removed.content ++ "', master.")⟩)
          else (save_memory memory, .ok forgottenResp)
        | none => (save_memory memory, .ok forgottenResp)
    else (fs, .ok ⟨"Unknown category, master.", none⟩)

/-- Modelled from the spec (not the source): the claim's relevance
condition, that a note's `content` appears as a literal case-sensitive
substring of the incoming message text.  The source has no such check;
this definition exists only to state the claim. -/
def specSubstring (needle hay : String) : Prop :=
  ∃ pre post, hay = pre ++ needle ++ post

/-- The net effect of one loop iteration on a note that has `times_used`:
score up by one, counter up by one, everything else unchanged. -/
def bump (n : Note) : Note :=
  ⟨n.content, n.score + 1, n.saved_at, n.times_used.map (fun t => t + 1)⟩

/- ### Helper lemmas -/

theorem incAllNotes_ok (l : List Note) (h : ∀ n ∈ l, n.times_used ≠ none) :
    incAllNotes l = .ok (l.map bump) := by
  induction l with
  | nil => rfl
  | cons a l ih =>
    have ha : a.times_used ≠ none := h a (List.mem_cons_self a l)
    obtain ⟨t, ht⟩ := Option.ne_none_iff_exists'.mp ha
    have hrec := ih (fun n hn => h n (List.mem_cons_of_mem a hn))
    simp [incAllNotes, incNote, ht, hrec, bump]

theorem incAllNotes_error (l : List Note) (h : ∃ n ∈ l, n.times_used = none) :
    incAllNotes l = .error "KeyError: times_used" := by
  induction l with
  | nil => simp at h
  | cons a l ih =>
    obtain ⟨n, hn, hnone⟩ := h
    rcases List.mem_cons.mp hn with hna | hnl
    · subst hna
      simp [incAllNotes, incNote, hnone]
    · cases hta : a.times_used with
      | none => simp [incAllNotes, incNote, hta]
      | some t => simp [incAllNotes, incNote, hta, ih ⟨n, hnl, hnone⟩]

theorem mem_rank {n : Note} {l : List Note} : n ∈ rank l ↔ n ∈ l :=
  List.mem_insertionSort noteGe

theorem rank_pairwise (l : List Note) : (rank l).Pairwise noteGe :=
  List.sorted_insertionSort noteGe l

theorem filter_orderedInsert_score (s : Int) (a : Note) (l : List Note) :
    (List.orderedInsert noteGe a l).filter (fun n => n.score = s) =
      if a.score = s then a :: l.filter (fun n => n.score = s)
      else l.filter (fun n => n.score = s) := by
  induction l with
  | nil =>
    by_cases h : a.score = s <;> simp [List.orderedInsert, List.filter, h]
  | cons b l ih =>
    rw [List.orderedInsert]
    by_cases hr : noteGe a b
    · rw [if_pos hr]
      by_cases h : a.score = s <;> simp [List.filter, h]
    · rw [if_neg hr]
      by_cases h : a.score = s
      · have hb : ¬ b.score = s := by
          intro hbs
          exact hr (le_of_eq (hbs.trans h.symm))
        simp [List.filter, hb, h, ih]
      · by_cases hb : b.score = s <;> simp [List.filter, hb, h, ih]

theorem rank_filter (s : Int) (notes : List Note) :
    (rank notes).filter (fun n => n.score = s) =
      notes.filter (fun n => n.score = s) := by
  induction notes with
  | nil => rfl
  | cons a l ih =>
    show (List.orderedInsert noteGe a (List.insertionSort noteGe l)).filter
          (fun n => n.score = s) = _
    rw [filter_orderedInsert_score]
    by_cases h : a.score = s <;> simp [List.filter, h, ← ih, rank]

/- ### Concrete sample data used by counterexamples and witnesses -/

/-- A note that has the `times_used` field, as the dead helper
`remember_note` would produce. -/
def noteMilk : Note := ⟨"buy milk", 5, "2024-01-01T00:00:00", some 0⟩

/-- A document whose single note carries `times_used`. -/
def docMilk : MemoryDoc := ⟨[], [], [noteMilk], []⟩

/-- A note without the `times_used` field, as `/remember` produces. -/
def noteMom : Note := ⟨"call mom", 5, "2024-01-02T00:00:00", none⟩

/-- A document whose single note lacks `times_used`. -/
def docMom : MemoryDoc := ⟨[], [], [noteMom], []⟩

/- ### Claim theorems -/

/-- C7 counterexample: the claim says a corrupt persisted file is
recovered by substituting the empty default document, but `load_memory`
only checks `os.path.exists`; `json.load` on a corrupt file raises
`JSONDecodeError`, which propagates instead of yielding `emptyDoc`. -/
theorem load_memory_corrupt_cex :
    load_memory FileState.corrupt = .error "json.decoder.JSONDecodeError" ∧
    load_memory FileState.corrupt ≠ .ok emptyDoc := by
  constructor
  · rfl
  · intro h
    simp [load_memory] at h

/-- C7 (amended): `load_memory` returns the fresh empty document exactly
when the file is absent; a stored document is returned as-is, and a
corrupt (unparseable) file raises a parse error that propagates to the
caller rather than being recovered locally. -/
theorem load_memory_spec :
    load_memory FileState.absent = .ok emptyDoc ∧
    (∀ d, load_memory (FileState.stored d) = .ok d) ∧
    (∃ e, load_memory FileState.corrupt = .error e) := by
  exact ⟨rfl, fun d => rfl, "json.decoder.JSONDecodeError", rfl⟩

/-- C8: a remember request whose content strips to the empty string
returns the "Nothing to remember, master." acknowledgment before any
load or save, leaving the persisted file in its prior state. -/
theorem remember_empty_content (fs : FileState) (content category : String)
    (score : Option Int) (key : Option String) (now : String)
    (h : pyStrip content = "") :
    remember fs content category score key now =
      (fs, ⟨"Nothing to remember, master.", none⟩) := by
  simp [remember, h]

/-- C8 witness: whitespace-only content on a stored document is a no-op
acknowledgment. -/
theorem remember_empty_content_witness :
    remember (FileState.stored docMilk) "   " "notes" none none "T0" =
      (FileState.stored docMilk, ⟨"Nothing to remember, master.", none⟩) :=
  remember_empty_content (FileState.stored docMilk) "   " "notes" none none "T0"
    (by decide)

/-- C6: a forget request with a category outside
profile/preferences/notes never changes the file state, and whenever the
load succeeds (file absent or stored) the handler returns the
"Unknown category, master." response without saving. -/
theorem forget_unknown_category (fs : FileState) (category : String)
    (key : Option String) (index : Option Int)
    (h1 : category ≠ "profile") (h2 : category ≠ "preferences")
    (h3 : category ≠ "notes") :
    (forget fs category key index).1 = fs ∧
    (∀ d, fs = FileState.stored d →
      forget fs category key index = (fs, .ok ⟨"Unknown category, master.", none⟩)) ∧
    (fs = FileState.absent →
      forget fs category key index = (fs, .ok ⟨"Unknown category, master.", none⟩)) := by
  have hcat : ¬ (category = "profile" ∨ category = "preferences" ∨ category = "notes") := by
    simp [h1, h2, h3]
  refine ⟨?_, ?_, ?_⟩
  · cases fs with
    | absent => simp [forget, load_memory, hcat]
    | corrupt => rfl
    | stored d => simp [forget, load_memory, hcat]
  · intro d h
    subst h
    simp [forget, load_memory, hcat]
  · intro h
    subst h
    simp [forget, load_memory, hcat]

/-- C6 witness: forgetting in an unrecognized category on a concrete
stored document leaves the state untouched and reports the unknown
category. -/
theorem forget_unknown_category_witness :
    (forget (FileState.stored docMilk) "junk" none none).1 =
      FileState.stored docMilk ∧
    forget (FileState.stored docMilk) "junk" none none =
      (FileState.stored docMilk, .ok ⟨"Unknown category, master.", none⟩) := by
  have h := forget_unknown_category (FileState.stored docMilk) "junk" none none
    (by decide) (by decide) (by decide)
  exact ⟨h.1, h.2.1 docMilk rfl⟩

/-- C5: forgetting from `notes` with a missing index, or an index outside
`0 <= index < len(notes)`, re-saves the loaded document unchanged (same
notes, same length, same order) and returns the fixed generic response,
which names no note content. -/
theorem forget_notes_out_of_range (d : MemoryDoc) (key : Option String)
    (index : Option Int)
    (h : ∀ i, index = some i → ¬(0 ≤ i ∧ i < (d.notes.length : Int))) :
    forget (FileState.stored d) "notes" key index =
      (FileState.stored d, .ok forgottenResp) ∧
    forgottenResp = ⟨"Memory forgotten", some "Requested memory cleared, master."⟩ := by
  refine ⟨?_, rfl⟩
  cases index with
  | none => simp [forget, load_memory, save_memory]
  | some i =>
    have hi := h i rfl
    simp [forget, load_memory, save_memory, hi]

/-- C5 witness: index 5 on a one-note document removes nothing and leaves
the stored document identical. -/
theorem forget_notes_out_of_range_witness :
    forget (FileState.stored docMilk) "notes" none (some 5) =
      (FileState.stored docMilk, .ok forgottenResp) :=
  (forget_notes_out_of_range docMilk none (some 5)
    (by intro i hi; cases hi; decide)).1

/-- C10: `GET /memory` never saves, so the file state after the request
is identical to the state before it (for every file state, corrupt
included); on a stored document the response is the same document with
only its `notes` replaced by the score-descending stable sort. -/
theorem get_memory_frame (fs : FileState) :
    (get_memory fs).1 = fs ∧
    (∀ d, fs = FileState.stored d →
      (get_memory fs).2 =
        .ok ⟨d.profile, d.preferences, rank d.notes, d.extra⟩ ∧
      ((rank d.notes).Pairwise noteGe)) := by
  constructor
  · cases fs <;> rfl
  · intro d h
    cases h
    exact ⟨rfl, List.sorted_insertionSort noteGe d.notes⟩

/-- C10 witness: reading memory of a concrete stored document returns the
sorted copy and leaves the file state unchanged. -/
theorem get_memory_frame_witness :
    (get_memory (FileState.stored docMilk)).1 = FileState.stored docMilk ∧
    (get_memory (FileState.stored docMilk)).2 =
      .ok ⟨docMilk.profile, docMilk.preferences, rank docMilk.notes, docMilk.extra⟩ := by
  have h := get_memory_frame (FileState.stored docMilk)
  exact ⟨h.1, (h.2 docMilk rfl).1⟩

/-- C9: the sort applied to the notes by `/chat`, `/ask` and `/memory`
orders any notes sequence by score descending (`Pairwise noteGe`), is
stable (for every score value, the notes holding that score appear in
their original relative order), and sends scores `[3, 9, 1]` to
`[9, 3, 1]`. -/
theorem rank_spec :
    (∀ notes : List Note, (rank notes).Pairwise noteGe) ∧
    (∀ (notes : List Note) (s : Int),
      (rank notes).filter (fun n => n.score = s) =
        notes.filter (fun n => n.score = s)) ∧
    rank [⟨"a", 3, "t1", none⟩, ⟨"b", 9, "t2", none⟩, ⟨"c", 1, "t3", none⟩] =
      [⟨"b", 9, "t2", none⟩, ⟨"a", 3, "t1", none⟩, ⟨"c", 1, "t3", none⟩] :=
  ⟨rank_pairwise, fun notes s => rank_filter s notes, by decide⟩

/-- C2 counterexample: remembering "hello" into `notes` appends a note
with only `content`, `score` and `saved_at` (`src/main.py:196-200`); the
appended note has no `times_used` field at all (`none` in the model), not
`times_used = 0` as the claim states. -/
theorem remember_times_used_cex :
    remember FileState.absent "hello" "notes" none none "T0" =
      (FileState.stored ⟨[], [], [⟨"hello", 5, "T0", none⟩], []⟩, storedResp) ∧
    (⟨"hello", 5, "T0", none⟩ : Note).times_used ≠ some 0 := by
  exact ⟨by decide, by decide⟩

/-- C2 (amended): a remember request with non-whitespace content and a
category other than profile/preferences appends exactly one new note to
that category's sequence; the note carries the stripped submitted
content, the supplied score (default 5 when omitted) and the creation
time, and has no `times_used` field. -/
theorem remember_appends_note (d : MemoryDoc) (content category : String)
    (score : Option Int) (key : Option String) (now : String)
    (hc : pyStrip content ≠ "") (h1 : category ≠ "profile")
    (h2 : category ≠ "preferences") :
    ∃ n : Note,
      remember (FileState.stored d) content category score key now =
        (FileState.stored (appendNote d category n), storedResp) ∧
      (category = "notes" → (appendNote d category n).notes = d.notes ++ [n]) ∧
      n.content = pyStrip content ∧ n.score = score.getD 5 ∧
      n.saved_at = now ∧ n.times_used = none := by
  refine ⟨⟨pyStrip content, score.getD 5, now, none⟩, ?_, ?_, rfl, rfl, rfl, rfl⟩
  · simp [remember, load_memory, save_memory, hc, h1, h2]
  · intro h
    simp [appendNote, h]

/-- C2 witness: remembering "hello" with omitted score appends the one
expected note to a concrete document. -/
theorem remember_appends_note_witness :
    ∃ n : Note,
      remember (FileState.stored docMilk) "hello" "notes" none none "T1" =
        (FileState.stored (appendNote docMilk "notes" n), storedResp) ∧
      ("notes" = "notes" → (appendNote docMilk "notes" n).notes = docMilk.notes ++ [n]) ∧
      n.content = pyStrip "hello" ∧ n.score = (none : Option Int).getD 5 ∧
      n.saved_at = "T1" ∧ n.times_used = none :=
  remember_appends_note docMilk "hello" "notes" none none "T1"
    (by decide) (by decide) (by decide)

/-- C3 counterexample: a remember request for `profile` without a key
writes no entry (the profile stays empty), but the handler still saves
and returns the very same `{"status": "Memory stored"}` success response
it returns when a key is supplied (`src/main.py:191-194,204-207`) — the
caller cannot distinguish the missing-key case from a successful store,
contradicting the claimed distinguishable validation failure. -/
theorem remember_missing_key_cex :
    remember FileState.absent "Bob" "profile" none none "T0" =
      (FileState.stored emptyDoc, storedResp) ∧
    (remember FileState.absent "Bob" "profile" none (some "name") "T0").2 =
      storedResp ∧
    storedResp.status = "Memory stored" ∧ emptyDoc.profile = [] := by
  exact ⟨by decide, by decide, rfl, rfl⟩

/-- C3 (amended): for category profile/preferences with a truthy key the
handler upserts `{value: stripped content, score}` under that key; with
the key missing it writes no entry but re-saves the document unchanged
and returns the identical "Memory stored" success response, not a
distinguishable validation failure. -/
theorem remember_profile_upsert (d : MemoryDoc) (content category : String)
    (score : Option Int) (now : String) (k : String)
    (hc : pyStrip content ≠ "")
    (hcat : category = "profile" ∨ category = "preferences")
    (hk : k ≠ "") :
    remember (FileState.stored d) content category score (some k) now =
      (FileState.stored (upsertEntry d category k ⟨pyStrip content, score.getD 5⟩),
       storedResp) ∧
    remember (FileState.stored d) content category score none now =
      (FileState.stored d, storedResp) := by
  have hcond : (category = "profile" ∨ category = "preferences") = True := eq_true hcat
  constructor <;> simp [remember, load_memory, save_memory, hc, hcond, hk]

/-- C3 witness: storing `key="name"`, `content="Bob"` into an empty
profile upserts the entry; the same request without a key stores nothing
yet returns the same success response. -/
theorem remember_profile_upsert_witness :
    remember (FileState.stored emptyDoc) "Bob" "profile" none (some "name") "T0" =
      (FileState.stored
        (upsertEntry emptyDoc "profile" "name" ⟨pyStrip "Bob", (none : Option Int).getD 5⟩),
       storedResp) ∧
    remember (FileState.stored emptyDoc) "Bob" "profile" none none "T0" =
      (FileState.stored emptyDoc, storedResp) :=
  remember_profile_upsert emptyDoc "Bob" "profile" none "T0" "name"
    (by decide) (Or.inl rfl) (by decide)

/-- C1 counterexample: the handlers contain no substring check at all.
The stored note "buy milk" is not a substring of the message "hello",
yet `/chat` still increments its score and `times_used`
(`src/main.py:100-102` runs over every note unconditionally), so notes
whose content is not a substring of the message are not left unchanged. -/
theorem chat_substring_cex :
    ¬ specSubstring noteMilk.content "hello" ∧
    chat (FileState.stored docMilk) "hello" =
      (FileState.stored ⟨[], [], [⟨"buy milk", 6, "2024-01-01T00:00:00", some 1⟩], []⟩,
       .ok "(Mock) I received your message: hello\nMemory notes count: 1") := by
  constructor
  · rintro ⟨pre, post, h⟩
    have h2 := congrArg String.length h
    rw [String.length_append, String.length_append] at h2
    have h5 : ("hello" : String).length = 5 := rfl
    have hc : noteMilk.content = "buy milk" := rfl
    have h8 : ("buy milk" : String).length = 8 := rfl
    rw [h5, hc, h8] at h2
    omega
  · rfl

/-- C1 (amended): on every mock chat/ask request, every note that has the
`times_used` field is reinforced unconditionally — score and `times_used`
each go up by exactly 1 regardless of whether the note's content occurs
in the message; the persisted notes are the sorted, bumped sequence. -/
theorem chat_ask_bump_all (d : MemoryDoc) (msg prompt : String)
    (hall : ∀ n ∈ d.notes, n.times_used ≠ none) (hp : pyStrip prompt ≠ "") :
    chat (FileState.stored d) msg =
      (FileState.stored ⟨d.profile, d.preferences, (rank d.notes).map bump, d.extra⟩,
       .ok ("(Mock) I received your message: " ++ msg ++
            "\nMemory notes count: " ++ toString d.notes.length)) ∧
    ask (FileState.stored d) prompt =
      (FileState.stored ⟨d.profile, d.preferences, (rank d.notes).map bump, d.extra⟩,
       .ok ("Certainly, master.\n\nYou asked: “" ++ pyStrip prompt ++
            "”\n\n(Mock mode active)")) ∧
    ∀ n ∈ d.notes, (bump n).score = n.score + 1 ∧ (bump n).content = n.content ∧
      ∀ t, n.times_used = some t → (bump n).times_used = some (t + 1) := by
  have hok : incAllNotes (rank d.notes) = .ok ((rank d.notes).map bump) :=
    incAllNotes_ok _ (fun n hn => hall n (mem_rank.mp hn))
  have hlen : ((rank d.notes).map bump).length = d.notes.length := by
    rw [List.length_map, rank, List.length_insertionSort]
  refine ⟨?_, ?_, ?_⟩
  · simp [chat, load_memory, hok, save_memory, hlen]
  · simp [ask, load_memory, hok, save_memory, hlen, hp]
  · intro n _
    exact ⟨rfl, rfl, fun t ht => by simp [bump, ht]⟩

/-- C1 witness: the amended unconditional reinforcement at a concrete
document and messages that do not contain the note's content. -/
theorem chat_ask_bump_all_witness :
    chat (FileState.stored docMilk) "x" =
      (FileState.stored
        ⟨docMilk.profile, docMilk.preferences, (rank docMilk.notes).map bump, docMilk.extra⟩,
       .ok ("(Mock) I received your message: " ++ "x" ++
            "\nMemory notes count: " ++ toString docMilk.notes.length)) ∧
    ask (FileState.stored docMilk) "hi" =
      (FileState.stored
        ⟨docMilk.profile, docMilk.preferences, (rank docMilk.notes).map bump, docMilk.extra⟩,
       .ok ("Certainly, master.\n\nYou asked: “" ++ pyStrip "hi" ++
            "”\n\n(Mock mode active)")) :=
  ⟨(chat_ask_bump_all docMilk "x" "hi" (by decide) (by decide)).1,
   (chat_ask_bump_all docMilk "x" "hi" (by decide) (by decide)).2.1⟩

/-- C4: whenever any stored note lacks the `times_used` field — which is
what every note stored through `/remember` looks like — the mock-mode
`/chat` and `/ask` handlers hit `KeyError` in the increment loop: no
`{reply}` is produced (the error escapes) and the file is not saved.  The
third conjunct exhibits reachability entirely through the public
interface: a note stored via `/remember` from an absent file makes the
subsequent `/chat` fail. -/
theorem chat_ask_keyerror (d : MemoryDoc) (msg prompt : String)
    (hn : ∃ n ∈ d.notes, n.times_used = none) (hp : pyStrip prompt ≠ "") :
    chat (FileState.stored d) msg =
      (FileState.stored d, .error "KeyError: times_used") ∧
    ask (FileState.stored d) prompt =
      (FileState.stored d, .error "KeyError: times_used") ∧
    chat ((remember FileState.absent "buy milk" "notes" none none "T0").1) "hi" =
      ((remember FileState.absent "buy milk" "notes" none none "T0").1,
       .error "KeyError: times_used") := by
  obtain ⟨n, hmem, hnone⟩ := hn
  have herr : incAllNotes (rank d.notes) = .error "KeyError: times_used" :=
    incAllNotes_error _ ⟨n, mem_rank.mpr hmem, hnone⟩
  refine ⟨?_, ?_, ?_⟩
  · simp [chat, load_memory, herr]
  · simp [ask, load_memory, herr, hp]
  · rfl

/-- C4 witness: a concrete document holding one `/remember`-shaped note
(no `times_used`) makes both handlers fail with the `KeyError`. -/
theorem chat_ask_keyerror_witness :
    chat (FileState.stored docMom) "yo" =
      (FileState.stored docMom, .error "KeyError: times_used") ∧
    ask (FileState.stored docMom) "hi" =
      (FileState.stored docMom, .error "KeyError: times_used") :=
  ⟨(chat_ask_keyerror docMom "yo" "hi" ⟨noteMom, by decide, rfl⟩ (by decide)).1,
   (chat_ask_keyerror docMom "yo" "hi" ⟨noteMom, by decide, rfl⟩ (by decide)).2.1⟩

end Jarvis
